import Mathlib

/- Verification of the orchestration core of a multi-agent query-answering
pipeline.  The definitions below are a shallow embedding of the Python
sources `src/agents/orchestrator/{orchestrator,streaming,synthesizer,router}.py`:
pure string manipulation is translated to Lean functions over `String` /
`List Char`, remote collaborator calls are abstracted as an environment of
`Except`-valued results (exception message or returned content), and the
LangGraph workflow is translated to explicit state passing, instrumented
with a trace of node entries and outgoing remote calls. -/

set_option maxRecDepth 10000

/- ===================== Data model (router.py / synthesizer.py) ============ -/

/-- Embeds `AgentType` (router.py): the closed enumeration of specialists. -/
inductive AgentType where
  | research
  | explainer
  | knowledge
deriving DecidableEq

/-- Embeds `RoutingDecision` (router.py): the structured output of the router. -/
structure RoutingDecision where
  agents : List AgentType
  reasoning : String
  check_knowledge_first : Bool := true
deriving DecidableEq

/-- Embeds `AgentResponse` (synthesizer.py): one record per agent invoked. -/
structure AgentResponse where
  agent_name : String
  content : String
  success : Bool := true
  error : Option String := none
deriving DecidableEq

/-- Embeds `SynthesizedResponse` (synthesizer.py): the terminal artifact. -/
structure SynthesizedResponse where
  answer : String
  sources : List String
  agents_used : List String
deriving DecidableEq

/- ===================== Python string helpers ============================= -/

/-- Python f-string rendering of an optional string: `None` renders as the
literal text "None", a present string renders as itself. -/
def pyStrOfOpt : Option String → String
  | none => "None"
  | some s => s

/-- Python `pat in s` substring test over explicit character lists. -/
def containsSeq : List Char → List Char → Bool
  | pat, [] => pat.isEmpty
  | pat, c :: cs => pat.isPrefixOf (c :: cs) || containsSeq pat cs

/-- Python `s.lower()` restricted to per-character lowering (the source only
tests for the ASCII substring "no relevant", for which this is exact). -/
def lowerStr (s : String) : String :=
  String.mk (s.data.map Char.toLower)

/- ===================== Collaborator environment ========================== -/

/-- Collaborator behaviour of one run: each remote call either raises (with
the exception text) or returns the extracted textual content.  `synthModel`
is the LLM call of the synthesizer, taking the built prompt. -/
structure Env where
  route : Except String RoutingDecision
  knowledge : Except String String
  research : Except String String
  explainer : Except String String
  synthModel : String → Except String String

/-- Trace elements: workflow node entries and outgoing remote calls.  The
explainer call records the composite message actually sent. -/
inductive Step where
  | routeCall
  | nodeCheckKnowledge
  | knowledgeCall
  | nodeCallResearch
  | researchCall
  | nodeCallExplainer
  | explainerCall (msg : String)
  | nodeSynthesize
  | synthModelCall
  | storeCall
deriving DecidableEq

/- ===================== ResponseSynthesizer (synthesizer.py) ============== -/

/-- Embeds the body of `SYNTHESIS_PROMPT.format(query=..., agent_responses=...)`
from synthesizer.py. -/
def synthesisPrompt (query agent_responses : String) : String :=
  "You are a response synthesizer. Combine the following agent responses into a coherent, comprehensive answer for the user.\n\nUser Query: "
  ++ query
  ++ "\n\nAgent Responses:\n"
  ++ agent_responses
  ++ "\n\nInstructions:\n1. Synthesize the information into a clear, well-structured response\n2. Highlight key findings from each agent\n3. If there are code snippets, preserve them with proper formatting\n4. If agents provided conflicting information, note this\n5. Keep the response focused and actionable\n\nProvide a comprehensive answer:"

/-- Embeds the `formatted_responses` join in `ResponseSynthesizer.synthesize`:
each response labelled by agent name, failed responses rendered as
`Error: {error}` (Python renders a `None` error as the text "None"). -/
def formattedResponses (responses : List AgentResponse) : String :=
  String.intercalate "\n\n"
    (responses.map (fun r =>
      "=== " ++ r.agent_name ++ " ===\n"
      ++ (if r.success then r.content else "Error: " ++ pyStrOfOpt r.error)))

/-- Embeds `ResponseSynthesizer.synthesize`: if exactly one response has
`success=true` it is returned verbatim without a model call; otherwise the
prompt is built and the LLM is called (a model failure propagates as an
exception).  The `List Step` component records whether the model was called. -/
def synthesize (env : Env) (query : String) (responses : List AgentResponse) :
    Except String SynthesizedResponse × List Step :=
  match responses.filter (fun r => r.success) with
  | [r] =>
      (.ok { answer := r.content
             sources := [r.agent_name]
             agents_used := responses.map (fun x => x.agent_name) }, [])
  | _ =>
      let successful := responses.filter (fun r => r.success)
      match env.synthModel (synthesisPrompt query (formattedResponses responses)) with
      | .error e => (.error e, [Step.synthModelCall])
      | .ok answer =>
          (.ok { answer := answer
                 sources := successful.map (fun r => r.agent_name)
                 agents_used := responses.map (fun r => r.agent_name) },
           [Step.synthModelCall])

/- ===================== OrchestratorAgent (orchestrator.py) =============== -/

/-- Embeds `OrchestratorAgent._knowledge_sufficient`: the Python condition
`result and len(result) > 100 and "no relevant" not in result.lower()`
(a `None` or empty result is falsy). -/
def knowledge_sufficient (result : Option String) : Bool :=
  match result with
  | none => false
  | some s =>
      (!s.isEmpty) && decide (s.length > 100)
      && !(containsSeq "no relevant".data (lowerStr s).data)

/-- Embeds `OrchestratorAgent._check_knowledge`: the knowledge collaborator is
called; on success the extracted content is recorded as `knowledge_result` and
an `AgentResponse` named "knowledge" is appended; on failure the exception is
swallowed and `knowledge_result` stays `None` with nothing appended.  Returns
(knowledge_result, appended responses, trace). -/
def check_knowledge (env : Env) :
    Option String × List AgentResponse × List Step :=
  match env.knowledge with
  | .ok content =>
      (some content,
       [{ agent_name := "knowledge", content := content }],
       [Step.nodeCheckKnowledge, Step.knowledgeCall])
  | .error _ =>
      (none, [], [Step.nodeCheckKnowledge, Step.knowledgeCall])

/-- Embeds `OrchestratorAgent._call_research`: skipped (no remote call) when
`AgentType.RESEARCH` is absent from `routing.agents`; otherwise the research
collaborator is called and a success or failure `AgentResponse` is appended.
Returns (research_result, responses, trace). -/
def call_research (env : Env) (routing : RoutingDecision)
    (responses : List AgentResponse) :
    Option String × List AgentResponse × List Step :=
  if AgentType.research ∈ routing.agents then
    match env.research with
    | .ok content =>
        (some content,
         responses ++ [{ agent_name := "research", content := content }],
         [Step.nodeCallResearch, Step.researchCall])
    | .error e =>
        (none,
         responses ++ [{ agent_name := "research", content := ""
                         success := false, error := some e }],
         [Step.nodeCallResearch, Step.researchCall])
  else
    (none, responses, [Step.nodeCallResearch])

/-- Embeds `OrchestratorAgent._need_explainer`: explainer is needed iff
`AgentType.EXPLAINER` occurs in `routing.agents`. -/
def need_explainer (routing : RoutingDecision) : Bool :=
  AgentType.explainer ∈ routing.agents

/-- Embeds the composite message built in `OrchestratorAgent._call_explainer`:
`f"{query}\n\nContext from research:\n{context}"` where
`context = state.get("research_result", "")`.  The state key is always present
(it is initialised by `run` and rewritten by the research node), so a skipped
or failed research leaves the value `None`, which the f-string renders as the
literal text "None". -/
def explainerMessage (query : String) (research_result : Option String) : String :=
  query ++ "\n\nContext from research:\n" ++ pyStrOfOpt research_result

/-- Embeds `OrchestratorAgent._call_explainer`: the explainer collaborator is
called with the composite message; success or failure appends the
corresponding `AgentResponse`.  Returns (responses, trace). -/
def call_explainer (env : Env) (query : String) (research_result : Option String)
    (responses : List AgentResponse) :
    List AgentResponse × List Step :=
  let msg := explainerMessage query research_result
  match env.explainer with
  | .ok content =>
      (responses ++ [{ agent_name := "explainer", content := content }],
       [Step.nodeCallExplainer, Step.explainerCall msg])
  | .error e =>
      (responses ++ [{ agent_name := "explainer", content := ""
                       success := false, error := some e }],
       [Step.nodeCallExplainer, Step.explainerCall msg])

/-- Embeds `OrchestratorAgent._synthesize_response`: an empty response list
short-circuits to the fixed "no information" answer with no model call and no
knowledge-store write; otherwise the synthesizer runs (its model failure
propagates as an exception) and on success the answer is written back to the
knowledge store best-effort (the write failure is swallowed, so only the call
itself is traced). -/
def synthesize_response (env : Env) (query : String)
    (responses : List AgentResponse) :
    Except String SynthesizedResponse × List Step :=
  if responses.isEmpty then
    (.ok { answer := "I couldn\x27t find relevant information for your query."
           sources := []
           agents_used := [] },
     [Step.nodeSynthesize])
  else
    match synthesize env query responses with
    | (.error e, tr) => (.error e, Step.nodeSynthesize :: tr)
    | (.ok final, tr) =>
        (.ok final, Step.nodeSynthesize :: tr ++ [Step.storeCall])

/-- The workflow path from the `call_research` node to the end of the graph:
`call_research`, the `_need_explainer` conditional edge, possibly
`call_explainer`, then `synthesize`. -/
def researchPath (env : Env) (query : String) (routing : RoutingDecision)
    (responses : List AgentResponse) :
    Except String SynthesizedResponse × List Step :=
  let (research_result, responses1, tr1) := call_research env routing responses
  if need_explainer routing then
    let (responses2, tr2) := call_explainer env query research_result responses1
    let (out, tr3) := synthesize_response env query responses2
    (out, tr1 ++ tr2 ++ tr3)
  else
    let (out, tr3) := synthesize_response env query responses1
    (out, tr1 ++ tr3)

/-- Embeds the compiled LangGraph workflow of `OrchestratorAgent._build_graph`
driven from the initial state built by `run`: `route_query`, the `_decide_next_step`
conditional edge (a routing failure records the error and ends), a conditional
`check_knowledge` with the `_knowledge_sufficient` edge, then the research
path.  The `Except` layer models an exception escaping `graph.ainvoke` (only
the model call of the synthesizer can raise); the `.ok` payload is
(final_response, error) from the final state. -/
def runGraph (env : Env) (query : String) :
    Except String (Option SynthesizedResponse × Option String) × List Step :=
  match env.route with
  | .error e =>
      (.ok (none, some ("Routing failed: " ++ e)), [Step.routeCall])
  | .ok routing =>
      if routing.check_knowledge_first then
        let (knowledge_result, responses, trk) := check_knowledge env
        if knowledge_sufficient knowledge_result then
          let (out, trs) := synthesize_response env query responses
          (out.map (fun f => (some f, none)), Step.routeCall :: trk ++ trs)
        else
          let (out, tr) := researchPath env query routing responses
          (out.map (fun f => (some f, none)), Step.routeCall :: trk ++ tr)
      else
        let (out, tr) := researchPath env query routing []
        (out.map (fun f => (some f, none)), Step.routeCall :: tr)

/-- The `final_response` field of the state produced by the graph (`none` when
the graph raised or ended on the routing-error edge). -/
def finalOf (env : Env) (query : String) : Option SynthesizedResponse :=
  match (runGraph env query).1 with
  | .ok (f, _) => f
  | .error _ => none

/-- Embeds `OrchestratorAgent.run`: invoke the graph; a truthy `error` field
yields `"Error: {error}"` with empty sources and agents; an exception from the
graph yields `"Error: {str(e)}"`; otherwise the final response, defaulting to
the fixed "No response generated." fallback. -/
def runO (env : Env) (query : String) : SynthesizedResponse × List Step :=
  match runGraph env query with
  | (.error e, tr) =>
      ({ answer := "Error: " ++ e, sources := [], agents_used := [] }, tr)
  | (.ok (finalOpt, errOpt), tr) =>
      if (errOpt.getD "").isEmpty then
        (finalOpt.getD
          { answer := "No response generated.", sources := [], agents_used := [] },
         tr)
      else
        ({ answer := "Error: " ++ errOpt.getD "", sources := [], agents_used := [] },
         tr)

/- ===================== StreamingOrchestrator (streaming.py) ============== -/

/-- Embeds the knowledge stage of `StreamingOrchestrator.stream`: when
`routing.check_knowledge_first`, the knowledge collaborator is called; an
`AgentResponse` is appended only when the call succeeded with truthy
(non-empty) content, extracted from the emitted `agent_complete` event; a
failure emits an error event and appends nothing.  Returns
(responses, trace). -/
def streamKnowledgeStage (env : Env) (routing : RoutingDecision) :
    List AgentResponse × List Step :=
  if routing.check_knowledge_first then
    match env.knowledge with
    | .ok content =>
        (if content.isEmpty then []
         else [{ agent_name := "knowledge", content := content }],
         [Step.knowledgeCall])
    | .error _ => ([], [Step.knowledgeCall])
  else ([], [])

/-- Embeds the research stage of `StreamingOrchestrator.stream`: the research
collaborator is called iff `AgentType.RESEARCH ∈ routing.agents`; an
`AgentResponse` is appended only on success with non-empty content. -/
def streamResearchStage (env : Env) (routing : RoutingDecision)
    (responses : List AgentResponse) :
    List AgentResponse × List Step :=
  if AgentType.research ∈ routing.agents then
    match env.research with
    | .ok content =>
        (responses ++
          (if content.isEmpty then []
           else [{ agent_name := "research", content := content }]),
         [Step.researchCall])
    | .error _ => (responses, [Step.researchCall])
  else (responses, [])

/-- Embeds the explainer stage of `StreamingOrchestrator.stream`: when
`AgentType.EXPLAINER ∈ routing.agents`, the research context is the content of
the first accumulated response named "research" (or "" when none), and the
explainer is called with `f"{query}\n\nContext from research:\n{context}"`;
an `AgentResponse` is appended only on success with non-empty content. -/
def streamExplainerStage (env : Env) (query : String)
    (responses : List AgentResponse) (routing : RoutingDecision) :
    List AgentResponse × List Step :=
  if AgentType.explainer ∈ routing.agents then
    let context :=
      ((responses.find? (fun r => r.agent_name == "research")).map
        (fun r => r.content)).getD ""
    let msg := query ++ "\n\nContext from research:\n" ++ context
    match env.explainer with
    | .ok content =>
        (responses ++
          (if content.isEmpty then []
           else [{ agent_name := "explainer", content := content }]),
         [Step.explainerCall msg])
    | .error _ => (responses, [Step.explainerCall msg])
  else (responses, [])

/-- Embeds `StreamingOrchestrator.stream` as its trace of remote calls: route,
then — with no knowledge-sufficiency gate — the knowledge, research and
explainer stages strictly by the routing flags, then synthesis.  A routing
failure is caught by the surrounding handler, ending the stream after the
router call; a synthesizer-model failure likewise ends the stream but the
call was made either way. -/
def runStream (env : Env) (query : String) : List Step :=
  match env.route with
  | .error _ => [Step.routeCall]
  | .ok routing =>
      let (responses1, t1) := streamKnowledgeStage env routing
      let (responses2, t2) := streamResearchStage env routing responses1
      let (responses3, t3) := streamExplainerStage env query responses2 routing
      let (_, t4) := synthesize env query responses3
      Step.routeCall :: t1 ++ t2 ++ t3 ++ t4

/- ===================== Content chunking (streaming.py) =================== -/

/-- Python `content.split("\n")` over character lists: the list of
newline-separated segments (always non-empty; an empty input gives `[[]]`). -/
def splitLines : List Char → List (List Char)
  | [] => [[]]
  | c :: cs =>
      if c = '\n' then [] :: splitLines cs
      else
        match splitLines cs with
        | [] => [[c]]
        | l :: ls => (c :: l) :: ls

/-- One iteration of the accumulation loop in
`StreamingOrchestrator._split_content`: state is (finished chunks, current
chunk); a line that would overflow the bound flushes the current chunk (when
non-empty) and starts a fresh one; every line is stored newline-terminated. -/
def chunkStep (maxLen : Nat) (acc : List (List Char) × List Char)
    (line : List Char) : List (List Char) × List Char :=
  if acc.2.length + line.length + 1 > maxLen then
    ((if acc.2.isEmpty then acc.1 else acc.1 ++ [acc.2]), line ++ ['\n'])
  else
    (acc.1, acc.2 ++ line ++ ['\n'])

/-- Embeds `StreamingOrchestrator._split_content` over character lists:
content within the bound is a single chunk; otherwise the line-based
accumulation loop runs, the final current chunk is flushed, and an empty
chunk list falls back to a single truncated chunk. -/
def split_content (content : List Char) (maxLen : Nat) : List (List Char) :=
  if content.length ≤ maxLen then [content]
  else
    let r := (splitLines content).foldl (chunkStep maxLen) ([], [])
    let chunks := if r.2.isEmpty then r.1 else r.1 ++ [r.2]
    if chunks.isEmpty then [content.take maxLen] else chunks

/-- The `agent_output` chunk payloads emitted for one sub-call in
`StreamingOrchestrator._call_knowledge` / `_call_research` /
`_call_explainer`: nothing for falsy (empty) content, otherwise
`_split_content(content, max_length=200)`. -/
def agentOutputChunks (content : List Char) : List (List Char) :=
  if content.isEmpty then [] else split_content content 200

/- ===================== QueryRouter (router.py) =========================== -/

/-- The structured JSON object parsed from the routing model reply, as read
by `QueryRouter.route` via `result.get(...)`: each field may be absent. -/
structure RouterOutput where
  agents : Option (List String)
  reasoning : Option String
  check_knowledge_first : Option Bool

/-- Embeds the Python enum construction `AgentType(a.lower())`: a lookup in
the closed enumeration, raising `ValueError` for any other name. -/
def parseAgent (a : String) : Except String AgentType :=
  let l := lowerStr a
  if l = "research" then .ok AgentType.research
  else if l = "explainer" then .ok AgentType.explainer
  else if l = "knowledge" then .ok AgentType.knowledge
  else .error ("\x27" ++ l ++ "\x27 is not a valid AgentType")

/-- The Python list comprehension `[AgentType(a.lower()) for a in agents]`:
elements are converted left to right and the first `ValueError` propagates. -/
def mapParseAgents : List String → Except String (List AgentType)
  | [] => .ok []
  | a :: as =>
      match parseAgent a with
      | .error e => .error e
      | .ok t =>
          match mapParseAgents as with
          | .error e => .error e
          | .ok ts => .ok (t :: ts)

/-- Embeds the tail of `QueryRouter.route` (after the model reply has been
parsed into `RouterOutput`): a missing `agents` list defaults to
`["research"]`, names are converted through the closed enumeration, and the
remaining fields take their documented defaults. -/
def routeParse (out : RouterOutput) : Except String RoutingDecision :=
  match mapParseAgents (out.agents.getD ["research"]) with
  | .error e => .error e
  | .ok agents =>
      .ok { agents := agents
            reasoning := out.reasoning.getD "Default routing"
            check_knowledge_first := out.check_knowledge_first.getD true }

/- ===================== Content extraction (_extract_content) ============= -/

mutual
/-- A parsed-JSON value as handled by `_extract_content` (orchestrator.py and
streaming.py share the method verbatim). -/
inductive JVal where
  | str : String → JVal
  | num : Int → JVal
  | bool : Bool → JVal
  | null : JVal
  | arr : JList → JVal
  | obj : JObj → JVal

/-- A JSON array. -/
inductive JList where
  | nil : JList
  | cons : JVal → JList → JList

/-- A JSON object (a Python dict with string keys). -/
inductive JObj where
  | nil : JObj
  | cons : String → JVal → JObj → JObj
end

/-- Python `dict` key lookup (keys are unique, so first match). -/
def jLookup : JObj → String → Option JVal
  | JObj.nil, _ => none
  | JObj.cons k v rest, key => if k = key then some v else jLookup rest key

/-- Python `x.get(key, default)`: defined on dicts, an `AttributeError` (the
`Except.error`) on any other value. -/
def jGetD (v : JVal) (key : String) (dflt : JVal) : Except Unit JVal :=
  match v with
  | JVal.obj fs => .ok ((jLookup fs key).getD dflt)
  | _ => .error ()

/-- Python truthiness of a parsed-JSON value. -/
def jTruthy : JVal → Bool
  | JVal.str s => !s.isEmpty
  | JVal.num n => decide (n ≠ 0)
  | JVal.bool b => b
  | JVal.null => false
  | JVal.arr JList.nil => false
  | JVal.arr (JList.cons _ _) => true
  | JVal.obj JObj.nil => false
  | JVal.obj (JObj.cons _ _ _) => true

/-- Python `parts[0]`: the head of a list, the first character of a string,
and a `KeyError`/`TypeError` (the `Except.error`) on anything else (JSON
object keys are strings, so an integer index never hits). -/
def jIndex0 : JVal → Except Unit JVal
  | JVal.arr (JList.cons x _) => .ok x
  | JVal.str s =>
      match s.data with
      | [] => .error ()
      | c :: _ => .ok (JVal.str (String.mk [c]))
  | _ => .error ()

/-- One character of Python string repr, escaped for the chosen quote. -/
def pyEscapeChar (quote : Char) (c : Char) : String :=
  if c = '\\' then "\\\\"
  else if c = quote then "\\" ++ String.mk [quote]
  else if c = '\n' then "\\n"
  else if c = '\x09' then "\\t"
  else if c = '\x0d' then "\\r"
  else String.mk [c]

/-- Python `repr` of a string (printable content): single-quoted unless the
string holds a single quote and no double quote. -/
def pyReprStr (s : String) : String :=
  let quote : Char :=
    if s.data.contains '\x27' && !(s.data.contains '"') then '"' else '\x27'
  String.mk [quote] ++ String.join (s.data.map (pyEscapeChar quote))
    ++ String.mk [quote]

mutual
/-- Python `repr`/`str` of a parsed-JSON value (dicts and lists render with
brackets and ", " separators, `None`/`True`/`False` per Python). -/
def pyRepr : JVal → String
  | JVal.str s => pyReprStr s
  | JVal.num n => toString n
  | JVal.bool b => if b then "True" else "False"
  | JVal.null => "None"
  | JVal.arr xs => "[" ++ pyReprList xs ++ "]"
  | JVal.obj fs => "\x7b" ++ pyReprObj fs ++ "\x7d"

/-- Comma-joined renderings of the items of a JSON array. -/
def pyReprList : JList → String
  | JList.nil => ""
  | JList.cons x JList.nil => pyRepr x
  | JList.cons x (JList.cons y rest) =>
      pyRepr x ++ ", " ++ pyReprList (JList.cons y rest)

/-- Comma-joined `key: value` renderings of the entries of a dict. -/
def pyReprObj : JObj → String
  | JObj.nil => ""
  | JObj.cons k v JObj.nil => pyReprStr k ++ ": " ++ pyRepr v
  | JObj.cons k v (JObj.cons k2 v2 rest) =>
      pyReprStr k ++ ": " ++ pyRepr v ++ ", " ++ pyReprObj (JObj.cons k2 v2 rest)
end

/-- The traversal inside the `try` of `_extract_content`:
`result.get("result", {}).get("message", {}).get("parts", [])`, then
`parts[0].get("text", "") if parts else ""`; `Except.error` is a raised
exception. -/
def extractTry (result : JObj) : Except Unit JVal := do
  let v1 ← jGetD (JVal.obj result) "result" (JVal.obj JObj.nil)
  let v2 ← jGetD v1 "message" (JVal.obj JObj.nil)
  let parts ← jGetD v2 "parts" (JVal.arr JList.nil)
  if jTruthy parts then
    let x ← jIndex0 parts
    jGetD x "text" (JVal.str "")
  else
    pure (JVal.str "")

/-- Embeds `_extract_content`: the traversal value on success, and
`str(result)` when the traversal raised. -/
def extract_content (result : JObj) : JVal :=
  match extractTry result with
  | .ok v => v
  | .error _ => JVal.str (pyRepr (JVal.obj result))

/- ===================== Helper lemmas ===================================== -/

/-- A Boolean emptiness test refuted is a disequality with the empty string. -/
theorem str_isEmpty_false_iff (s : String) : s.isEmpty = false ↔ s ≠ "" := by
  rw [Bool.eq_false_iff, Ne, Ne]
  exact not_congr (String.isEmpty_iff s)

/-- The routing-failure message recorded by `route_query` is never empty. -/
theorem routing_failed_not_empty (e : String) :
    ("Routing failed: " ++ e).isEmpty = false := by
  rw [Bool.eq_false_iff]
  intro h
  have h2 := (String.isEmpty_iff _).mp h
  have h3 := congrArg String.data h2
  simp [String.data_append] at h3

/-- A routing failure short-circuits the whole run: the graph ends on the
error edge and `run` maps the recorded error to the terminal answer. -/
theorem runO_route_error (env : Env) (q e : String) (h : env.route = .error e) :
    runO env q =
      ({ answer := "Error: Routing failed: " ++ e, sources := [], agents_used := [] },
       [Step.routeCall]) := by
  unfold runO runGraph
  rw [h]
  simp [routing_failed_not_empty]
  rw [← String.append_assoc]
  congr 1

/-- The trace returned by `run` is exactly the trace of the graph execution. -/
theorem runO_trace (env : Env) (q : String) :
    (runO env q).2 = (runGraph env q).2 := by
  unfold runO
  rcases hG : runGraph env q with ⟨res, tr⟩
  match res with
  | .error e => rfl
  | .ok (finalOpt, errOpt) =>
      by_cases he : (errOpt.getD "").isEmpty <;> simp [he]

/-- The synthesizer trace is empty (single-success shortcut) or exactly one
model call. -/
theorem synthesize_trace_cases (env : Env) (q : String)
    (responses : List AgentResponse) :
    (synthesize env q responses).2 = [] ∨
    (synthesize env q responses).2 = [Step.synthModelCall] := by
  unfold synthesize
  rcases hf : responses.filter (fun r => r.success) with _ | ⟨r, _ | ⟨r2, rest⟩⟩ <;>
    rw [hf]
  · cases hm : env.synthModel (synthesisPrompt q (formattedResponses responses)) <;>
      simp [hm]
  · simp
  · cases hm : env.synthModel (synthesisPrompt q (formattedResponses responses)) <;>
      simp [hm]

/- ===================== Concrete environments for witnesses =============== -/

/-- A 101-character knowledge result, long enough to pass the sufficiency
heuristic and free of the "no relevant" marker. -/
def s101 : String := String.mk (List.replicate 101 'a')

/-- A run whose routing asks for research after a knowledge check and whose
knowledge lookup returns a sufficient result. -/
def envSufficient : Env :=
  { route := .ok { agents := [AgentType.research], reasoning := "r"
                   check_knowledge_first := true }
    knowledge := .ok s101
    research := .ok "research content"
    explainer := .ok "explainer content"
    synthModel := fun _ => .ok "synthesized answer" }

/-- A run whose router call raises. -/
def envRouteFail : Env :=
  { route := .error "boom"
    knowledge := .ok ""
    research := .ok ""
    explainer := .ok ""
    synthModel := fun _ => .ok "" }

/-- A run routed straight to the explainer alone: research is skipped, so the
workflow state carries `research_result = None` into the explainer call. -/
def envExplainerOnly : Env :=
  { route := .ok { agents := [AgentType.explainer], reasoning := "r"
                   check_knowledge_first := false }
    knowledge := .ok ""
    research := .ok "unused"
    explainer := .ok "expl"
    synthModel := fun _ => .ok "ans" }

/- ===================== Claim C5 ========================================== -/

/-- Claim C5: for every query, if the router call raises, no specialist agent
is invoked (the trace holds only the router call) and `run` returns a
`SynthesizedResponse` whose answer is exactly "Error: Routing failed:
{message}" with empty sources and empty agents_used. -/
theorem C5_routing_failure_terminal (env : Env) (q e : String)
    (h : env.route = .error e) :
    runO env q =
      ({ answer := "Error: Routing failed: " ++ e, sources := [], agents_used := [] },
       [Step.routeCall]) :=
  runO_route_error env q e h

/-- Witness for C5 at a concrete failing router. -/
theorem C5_witness :
    runO envRouteFail "q" =
      ({ answer := "Error: Routing failed: boom", sources := [], agents_used := [] },
       [Step.routeCall]) := by
  have h := C5_routing_failure_terminal envRouteFail "q" "boom" rfl
  rw [h]
  decide

/- ===================== Claim C6 ========================================== -/

/-- Claim C6: in the SYNTHESIZE step of the non-streaming workflow, whenever the
accumulated `agent_responses` list is empty, the final response is exactly the
fixed answer "I could not find..." (with the Python contraction) with empty
sources and empty agents_used, and no synthesizer model call is made (the
trace holds only the node entry). -/
theorem C6_empty_responses_short_circuit (env : Env) (q : String) :
    synthesize_response env q [] =
      (.ok { answer := "I couldn\x27t find relevant information for your query."
             sources := []
             agents_used := [] },
       [Step.nodeSynthesize]) := rfl

/- ===================== Claim C3 ========================================== -/

/-- Claim C3: for every query and every responses list containing exactly one
`AgentResponse` with `success = true`, `synthesize` returns the content of
that response unchanged as the answer, with sources the one-element list of
that agent name and agents_used the names of all attempted responses in order,
and no model call is made (empty synthesizer trace). -/
theorem C3_single_success_verbatim (env : Env) (q : String)
    (responses : List AgentResponse) (r : AgentResponse)
    (h : responses.filter (fun x => x.success) = [r]) :
    synthesize env q responses =
      (.ok { answer := r.content
             sources := [r.agent_name]
             agents_used := responses.map (fun x => x.agent_name) },
       []) := by
  unfold synthesize
  rw [h]

/-- Witness for C3 on a two-response list whose only success is the explainer. -/
theorem C3_witness :
    synthesize envExplainerOnly "q"
        [{ agent_name := "explainer", content := "hello" },
         { agent_name := "research", content := "", success := false
           error := some "timeout" }] =
      (.ok { answer := "hello"
             sources := ["explainer"]
             agents_used := ["explainer", "research"] },
       []) := by
  have h := C3_single_success_verbatim envExplainerOnly "q"
    [{ agent_name := "explainer", content := "hello" },
     { agent_name := "research", content := "", success := false
       error := some "timeout" }]
    { agent_name := "explainer", content := "hello" } (by decide)
  rw [h]
  rfl

/- ===================== Claim C4 ========================================== -/

/-- Claim C4 (code bug): the spec requires the explainer message to end with
an empty research part when research was skipped or failed, but the code reads
the always-present state key `research_result` whose value is then `None`, and
the f-string renders the literal text "None".  This theorem evaluates the
workflow at a failing input: routing `[EXPLAINER]` with no knowledge check, so
research is skipped and the explainer receives the query followed by
"\n\nContext from research:\nNone". -/
theorem C4_explainer_receives_None :
    (runO envExplainerOnly "What is X?").2 =
      [Step.routeCall, Step.nodeCallResearch, Step.nodeCallExplainer,
       Step.explainerCall "What is X?\n\nContext from research:\nNone",
       Step.nodeSynthesize, Step.storeCall] := by
  decide

/- ===================== Claim C10 ========================================= -/

/-- Claim C10: `run` is total at the public interface.  The embedding `runO`
is a total function over every collaborator behaviour (routing failure, any
sub-agent failure, graph/synthesis exception), and its answer is always one of
the three defended forms: an "Error: "-prefixed answer with empty sources and
agents_used, the fixed "No response generated." fallback, or the final
synthesized response of the workflow. -/
theorem C10_run_total (env : Env) (q : String) :
    (∃ m, (runO env q).1 =
      { answer := "Error: " ++ m, sources := [], agents_used := [] }) ∨
    (runO env q).1 =
      { answer := "No response generated.", sources := [], agents_used := [] } ∨
    (∃ r, finalOf env q = some r ∧ (runO env q).1 = r) := by
  unfold runO finalOf
  rcases hG : runGraph env q with ⟨res, tr⟩
  match res with
  | .error e =>
      left
      exact ⟨e, rfl⟩
  | .ok (finalOpt, errOpt) =>
      by_cases he : (errOpt.getD "").isEmpty
      · cases finalOpt with
        | none =>
            right; left
            simp [he]
        | some f =>
            right; right
            exact ⟨f, rfl, by simp [he]⟩
      · left
        exact ⟨errOpt.getD "", by simp [he]⟩

/- ===================== Claim C1 ========================================== -/

/-- The Boolean sufficiency heuristic unfolded to its three conditions. -/
theorem knowledge_sufficient_iff (o : Option String) :
    knowledge_sufficient o = true ↔
      ∃ s, o = some s ∧ s ≠ "" ∧ s.length > 100 ∧
        containsSeq "no relevant".data (lowerStr s).data = false := by
  cases o with
  | none => simp [knowledge_sufficient]
  | some s =>
      simp [knowledge_sufficient, Bool.and_eq_true, Bool.not_eq_true',
        str_isEmpty_false_iff, decide_eq_true_iff]
      tauto

/-- The research path always enters the CALL_RESEARCH node first. -/
theorem researchPath_trace_head (env : Env) (q : String)
    (routing : RoutingDecision) (responses : List AgentResponse) :
    ∃ tl, (researchPath env q routing responses).2 = Step.nodeCallResearch :: tl := by
  unfold researchPath call_research
  by_cases h : AgentType.research ∈ routing.agents <;>
    cases hr : env.research <;>
      by_cases hne : need_explainer routing <;>
        simp [h, hne]

/-- Claim C1: in the non-streaming workflow, for every run with
`routing.check_knowledge_first = true`, the recorded knowledge result is
sufficient iff it is non-empty, longer than 100 characters and free of the
case-insensitive substring "no relevant"; when sufficient the workflow
transitions from CHECK_KNOWLEDGE directly to SYNTHESIZE (the trace is exactly
route, knowledge check, synthesize, store — neither research nor explainer is
invoked); otherwise it transitions to CALL_RESEARCH. -/
theorem C1_knowledge_sufficiency_gate (env : Env) (q : String)
    (routing : RoutingDecision) (hr : env.route = .ok routing)
    (hk : routing.check_knowledge_first = true) :
    (knowledge_sufficient (check_knowledge env).1 = true ↔
       ∃ s, (check_knowledge env).1 = some s ∧ s ≠ "" ∧ s.length > 100 ∧
         containsSeq "no relevant".data (lowerStr s).data = false) ∧
    (knowledge_sufficient (check_knowledge env).1 = true →
       (runO env q).2 =
         [Step.routeCall, Step.nodeCheckKnowledge, Step.knowledgeCall,
          Step.nodeSynthesize, Step.storeCall]) ∧
    (knowledge_sufficient (check_knowledge env).1 = false →
       ∃ rest, (runO env q).2 =
         Step.routeCall :: Step.nodeCheckKnowledge :: Step.knowledgeCall ::
           Step.nodeCallResearch :: rest) := by
  refine ⟨knowledge_sufficient_iff _, ?_, ?_⟩
  · intro hs
    rw [runO_trace]
    cases hkn : env.knowledge with
    | error e =>
        rw [show (check_knowledge env).1 = none by simp [check_knowledge, hkn]] at hs
        simp [knowledge_sufficient] at hs
    | ok c =>
        have hck : check_knowledge env =
            (some c, [{ agent_name := "knowledge", content := c }],
             [Step.nodeCheckKnowledge, Step.knowledgeCall]) := by
          simp [check_knowledge, hkn]
        rw [hck] at hs
        unfold runGraph
        rw [hr]
        simp only [hk, if_true, hck, hs, if_pos]
        simp [synthesize_response, synthesize]
  · intro hs
    rw [runO_trace]
    unfold runGraph
    rw [hr]
    rcases researchPath_trace_head env q routing (check_knowledge env).2.1 with ⟨tl, hrp⟩
    cases hkn : env.knowledge with
    | error e =>
        have hck : check_knowledge env =
            (none, [], [Step.nodeCheckKnowledge, Step.knowledgeCall]) := by
          simp [check_knowledge, hkn]
        rw [hck] at hrp
        simp only [hk, if_true, hck, knowledge_sufficient, Bool.false_eq_true,
          if_false]
        exact ⟨tl, by simp [hrp]⟩
    | ok c =>
        have hck : check_knowledge env =
            (some c, [{ agent_name := "knowledge", content := c }],
             [Step.nodeCheckKnowledge, Step.knowledgeCall]) := by
          simp [check_knowledge, hkn]
        rw [hck] at hrp hs
        simp only [hk, if_true, hck, hs, if_false]
        exact ⟨tl, by simp [hrp]⟩

/-- Witness for C1 at a concrete sufficient knowledge result. -/
theorem C1_witness :
    (runO envSufficient "q").2 =
      [Step.routeCall, Step.nodeCheckKnowledge, Step.knowledgeCall,
       Step.nodeSynthesize, Step.storeCall] := by
  have h := C1_knowledge_sufficiency_gate envSufficient "q"
    { agents := [AgentType.research], reasoning := "r"
      check_knowledge_first := true } rfl rfl
  exact h.2.1 (by decide)

/- ===================== Claim C8 ========================================== -/

/-- If any listed name fails enum conversion, the whole conversion raises. -/
theorem mapParseAgents_error_of_mem (l : List String) (a : String)
    (ha : a ∈ l) (hbad : ∀ t, parseAgent a ≠ .ok t) :
    ∃ e, mapParseAgents l = .error e := by
  induction l with
  | nil => cases ha
  | cons b bs ih =>
      unfold mapParseAgents
      cases hb : parseAgent b with
      | error e => exact ⟨e, rfl⟩
      | ok t =>
          have hab : a ∈ bs := by
            rcases List.mem_cons.mp ha with h | h
            · subst h
              exact absurd hb (hbad t)
            · exact h
          rcases ih hab with ⟨e, he⟩
          rw [he]
          exact ⟨e, rfl⟩

/-- Claim C8: if the structured classifier result omits the agents list,
`route` defaults to exactly `[RESEARCH]`; and if the agents list contains a
name outside the closed enumeration, `route` raises (never fabricating an
agent) and the workflow maps the failure to the terminal routing-failure
answer. -/
theorem C8_router_default_and_closed_enum (out : RouterOutput) (a q : String)
    (env : Env) :
    (out.agents = none →
       routeParse out =
         .ok { agents := [AgentType.research]
               reasoning := out.reasoning.getD "Default routing"
               check_knowledge_first := out.check_knowledge_first.getD true }) ∧
    (a ∈ out.agents.getD ["research"] → (∀ t, parseAgent a ≠ .ok t) →
       ∃ e, routeParse out = .error e ∧
         runO { env with route := routeParse out } q =
           ({ answer := "Error: Routing failed: " ++ e
              sources := [], agents_used := [] },
            [Step.routeCall])) := by
  constructor
  · intro h
    unfold routeParse
    rw [h]
    rfl
  · intro ha hbad
    rcases mapParseAgents_error_of_mem _ a ha hbad with ⟨e, he⟩
    have hres : routeParse out = .error e := by
      unfold routeParse
      rw [he]
    refine ⟨e, hres, ?_⟩
    exact runO_route_error _ q e (by simp [hres])

/-- Witness for C8: a missing agents list defaults to research, and the
unknown name "github" is a hard routing error surfaced by the workflow. -/
theorem C8_witness :
    (routeParse { agents := none, reasoning := none, check_knowledge_first := none } =
       .ok { agents := [AgentType.research], reasoning := "Default routing"
             check_knowledge_first := true }) ∧
    (∃ e, routeParse { agents := some ["github"], reasoning := none
                       check_knowledge_first := none } = .error e ∧
       runO { envRouteFail with
              route := routeParse { agents := some ["github"], reasoning := none
                                    check_knowledge_first := none } } "q" =
         ({ answer := "Error: Routing failed: " ++ e
            sources := [], agents_used := [] },
          [Step.routeCall])) := by
  constructor
  · exact (C8_router_default_and_closed_enum
      { agents := none, reasoning := none, check_knowledge_first := none }
      "github" "q" envRouteFail).1 rfl
  · exact (C8_router_default_and_closed_enum
      { agents := some ["github"], reasoning := none, check_knowledge_first := none }
      "github" "q" envRouteFail).2 (by decide)
      (by intro t h; exact Except.noConfusion h)

/- ===================== Claim C7 ========================================== -/

/-- Splitting on newlines never yields an empty list of segments. -/
theorem splitLines_ne_nil (l : List Char) : splitLines l ≠ [] := by
  cases l with
  | nil => simp [splitLines]
  | cons c cs =>
      unfold splitLines
      by_cases h : c = '\n'
      · simp [h]
      · simp only [h, if_false]
        cases hs : splitLines cs <;> simp

/-- Rejoining the newline-split segments, each newline-terminated, appends
exactly one newline to the original content. -/
theorem splitLines_rejoin (l : List Char) :
    ((splitLines l).map (fun g => g ++ ['\n'])).flatten = l ++ ['\n'] := by
  induction l with
  | nil => simp [splitLines]
  | cons c cs ih =>
      unfold splitLines
      by_cases h : c = '\n'
      · subst h
        simp [ih]
      · simp only [h, if_false]
        cases hs : splitLines cs with
        | nil => exact absurd hs (splitLines_ne_nil cs)
        | cons g gs =>
            rw [hs] at ih
            simp only [List.map_cons, List.flatten_cons, List.cons_append] at ih ⊢
            rw [ih]

/-- One step of the chunk accumulation preserves the flattened content. -/
theorem chunkStep_flatten (m : Nat) (acc : List (List Char) × List Char)
    (g : List Char) :
    (chunkStep m acc g).1.flatten ++ (chunkStep m acc g).2 =
      acc.1.flatten ++ acc.2 ++ (g ++ ['\n']) := by
  unfold chunkStep
  by_cases h : acc.2.length + g.length + 1 > m
  · simp only [h, if_true]
    by_cases h2 : acc.2.isEmpty
    · have : acc.2 = [] := List.isEmpty_iff.mp h2
      simp [h2, this]
    · simp [h2, List.flatten_append, List.append_assoc]
  · simp [h, List.append_assoc]

/-- The chunk accumulation loop preserves the flattened content. -/
theorem chunkFold_flatten (m : Nat) (lines : List (List Char))
    (acc : List (List Char) × List Char) :
    ((lines.foldl (chunkStep m) acc).1.flatten ++
      (lines.foldl (chunkStep m) acc).2) =
      acc.1.flatten ++ acc.2 ++ (lines.map (fun g => g ++ ['\n'])).flatten := by
  induction lines generalizing acc with
  | nil => simp
  | cons g gs ih =>
      rw [List.foldl_cons, ih, chunkStep_flatten]
      simp [List.append_assoc]

/-- After accumulating at least one line the current chunk is never empty
(every processed line leaves it newline-terminated). -/
theorem chunkFold_current_ne_nil (m : Nat) (lines : List (List Char))
    (acc : List (List Char) × List Char) (h : lines ≠ []) :
    (lines.foldl (chunkStep m) acc).2 ≠ [] := by
  induction lines generalizing acc with
  | nil => cases h rfl
  | cons g gs ih =>
      cases gs with
      | nil =>
          simp only [List.foldl_cons, List.foldl_nil]
          unfold chunkStep
          split <;> simp
      | cons g2 gs2 =>
          rw [List.foldl_cons]
          exact ih _ (List.cons_ne_nil g2 gs2)

/-- Flattening the chunks of `_split_content` yields the content within the
bound, and the content with one extra trailing newline beyond it. -/
theorem split_content_flatten (content : List Char) :
    (split_content content 200).flatten =
      if content.length ≤ 200 then content else content ++ ['\n'] := by
  simp only [split_content]
  by_cases h : content.length ≤ 200
  · simp [h]
  · have hne : ((splitLines content).foldl (chunkStep 200) ([], [])).2 ≠ [] :=
      chunkFold_current_ne_nil 200 _ _ (splitLines_ne_nil content)
    have hne2 : ((splitLines content).foldl (chunkStep 200) ([], [])).2.isEmpty ≠ true := by
      simpa [List.isEmpty_iff] using hne
    have hinv := chunkFold_flatten 200 (splitLines content) ([], [])
    rw [splitLines_rejoin] at hinv
    simp only [List.flatten_nil, List.nil_append] at hinv
    rw [if_neg h, if_neg h, if_neg hne2, if_neg (by simp)]
    rw [List.flatten_append]
    simpa using hinv

/-- Claim C7 counterexample: for a 201-character single-line content, the
concatenated `agent_output` chunk payloads are not the content (an extra
newline is appended). -/
theorem C7_counterexample :
    (agentOutputChunks (List.replicate 201 'a')).flatten ≠
      List.replicate 201 'a' := by
  decide

/-- Claim C7 amended: concatenating the `agent_output` chunk payloads of one
sub-call, in emission order, yields the content of that sub-call exactly when the
content is at most 200 characters long; for longer content it yields the
content followed by one extra trailing newline (every emitted chunk is
newline-terminated by the splitter). -/
theorem C7_chunk_concat (content : List Char) :
    (agentOutputChunks content).flatten =
      if content.length ≤ 200 then content else content ++ ['\n'] := by
  unfold agentOutputChunks
  by_cases h : content.isEmpty
  · have : content = [] := List.isEmpty_iff.mp h
    subst this
    simp
  · simp only [h, if_false]
    exact split_content_flatten content

/- ===================== Claim C2 ========================================== -/

/-- The streaming knowledge stage calls the knowledge collaborator exactly
when the routing asks for the knowledge check. -/
theorem streamKnowledgeStage_trace (env : Env) (routing : RoutingDecision) :
    (streamKnowledgeStage env routing).2 =
      if routing.check_knowledge_first then [Step.knowledgeCall] else [] := by
  unfold streamKnowledgeStage
  by_cases h : routing.check_knowledge_first <;>
    cases hk : env.knowledge <;> simp [h]

/-- The streaming research stage calls the research collaborator exactly when
research is routed. -/
theorem streamResearchStage_trace (env : Env) (routing : RoutingDecision)
    (responses : List AgentResponse) :
    (streamResearchStage env routing responses).2 =
      if AgentType.research ∈ routing.agents then [Step.researchCall] else [] := by
  unfold streamResearchStage
  by_cases h : AgentType.research ∈ routing.agents <;>
    cases hk : env.research <;> simp [h]

/-- The streaming explainer stage calls the explainer collaborator (with some
composite message) exactly when the explainer is routed. -/
theorem streamExplainerStage_trace (env : Env) (q : String)
    (responses : List AgentResponse) (routing : RoutingDecision) :
    ∃ m, (streamExplainerStage env q responses routing).2 =
      if AgentType.explainer ∈ routing.agents then [Step.explainerCall m] else [] := by
  unfold streamExplainerStage
  by_cases h : AgentType.explainer ∈ routing.agents <;>
    cases hk : env.explainer <;> simp [h]

/-- Claim C2 counterexample: with `check_knowledge_first = true`, routing
`[RESEARCH]` and a sufficient knowledge result, the non-streaming workflow
skips the research collaborator but the streaming adapter still calls it —
the adapter does not perform the knowledge-sufficiency gate of §4.3. -/
theorem C2_counterexample :
    knowledge_sufficient (check_knowledge envSufficient).1 = true ∧
    Step.researchCall ∉ (runO envSufficient "q").2 ∧
    Step.researchCall ∈ runStream envSufficient "q" := by
  decide

/-- Claim C2 amended: for every routed run, the streaming adapter performs the
same step sequence as the non-streaming workflow except for the
knowledge-sufficiency gate, which it omits: the knowledge collaborator is
called iff `check_knowledge_first`, and the research and explainer
collaborators are called iff they appear in `routing.agents`, regardless of
how sufficient the knowledge result is. -/
theorem C2_stream_calls_by_routing (env : Env) (q : String)
    (routing : RoutingDecision) (hr : env.route = .ok routing) :
    ((Step.knowledgeCall ∈ runStream env q) ↔
       routing.check_knowledge_first = true) ∧
    ((Step.researchCall ∈ runStream env q) ↔
       AgentType.research ∈ routing.agents) ∧
    ((∃ m, Step.explainerCall m ∈ runStream env q) ↔
       AgentType.explainer ∈ routing.agents) := by
  have hstream : runStream env q =
      Step.routeCall :: (streamKnowledgeStage env routing).2 ++
        (streamResearchStage env routing (streamKnowledgeStage env routing).1).2 ++
        (streamExplainerStage env q
          (streamResearchStage env routing (streamKnowledgeStage env routing).1).1
          routing).2 ++
        (synthesize env q
          (streamExplainerStage env q
            (streamResearchStage env routing
              (streamKnowledgeStage env routing).1).1 routing).1).2 := by
    unfold runStream
    rw [hr]
  rcases streamExplainerStage_trace env q
    (streamResearchStage env routing (streamKnowledgeStage env routing).1).1
    routing with ⟨m, he⟩
  rcases synthesize_trace_cases env q
    (streamExplainerStage env q
      (streamResearchStage env routing
        (streamKnowledgeStage env routing).1).1 routing).1 with hs | hs <;>
    rw [hstream, streamKnowledgeStage_trace, streamResearchStage_trace, he, hs] <;>
      by_cases h1 : routing.check_knowledge_first <;>
        by_cases h2 : AgentType.research ∈ routing.agents <;>
          by_cases h3 : AgentType.explainer ∈ routing.agents <;>
            simp [h1, h2, h3]

/-- Witness for the amended C2 theorem at the concrete sufficient-knowledge
run: knowledge and research are called, the explainer is not. -/
theorem C2_witness :
    ((Step.knowledgeCall ∈ runStream envSufficient "q") ↔ true = true) ∧
    ((Step.researchCall ∈ runStream envSufficient "q") ↔
       AgentType.research ∈ [AgentType.research]) ∧
    ((∃ m, Step.explainerCall m ∈ runStream envSufficient "q") ↔
       AgentType.explainer ∈ [AgentType.research]) := by
  exact C2_stream_calls_by_routing envSufficient "q"
    { agents := [AgentType.research], reasoning := "r"
      check_knowledge_first := true } rfl

/- ===================== Claim C9 ========================================== -/

/-- Claim C9 counterexample: on the empty envelope the path
`result.message.parts[0].text` is absent, yet extraction returns the empty
string, not the string form of the envelope. -/
theorem C9_counterexample :
    jLookup JObj.nil "result" = none ∧
    extract_content JObj.nil = JVal.str "" ∧
    extract_content JObj.nil ≠ JVal.str (pyRepr (JVal.obj JObj.nil)) := by
  refine ⟨rfl, rfl, ?_⟩
  intro h
  injection h with h2
  exact absurd h2 (by decide)

/-- Claim C9 amended: the content extraction of the caller returns the value
at `result.message.parts[0].text` when that full path is present with dict and
array shapes along it; when the path is absent because any dict along it lacks
its next key (no "result", "message", "parts" or "text" key) or the parts
array is empty, the chained `.get` defaults apply and the extraction returns
the empty string; and the raw string form of the envelope is produced only
when the traversal raises on a wrongly-typed value — whenever every value the
traversal finds has the expected shape, the traversal succeeds, so the
fallback never fires. -/
theorem C9_extraction_path (result : JObj) :
    (∀ m p x tail t,
       jLookup result "result" = some (JVal.obj m) →
       jLookup m "message" = some (JVal.obj p) →
       jLookup p "parts" = some (JVal.arr (JList.cons (JVal.obj x) tail)) →
       jLookup x "text" = some t →
       extract_content result = t) ∧
    (jLookup result "result" = none → extract_content result = JVal.str "") ∧
    (∀ m, jLookup result "result" = some (JVal.obj m) →
       jLookup m "message" = none → extract_content result = JVal.str "") ∧
    (∀ m p, jLookup result "result" = some (JVal.obj m) →
       jLookup m "message" = some (JVal.obj p) →
       jLookup p "parts" = none → extract_content result = JVal.str "") ∧
    (∀ m p, jLookup result "result" = some (JVal.obj m) →
       jLookup m "message" = some (JVal.obj p) →
       jLookup p "parts" = some (JVal.arr JList.nil) →
       extract_content result = JVal.str "") ∧
    (∀ m p x tail, jLookup result "result" = some (JVal.obj m) →
       jLookup m "message" = some (JVal.obj p) →
       jLookup p "parts" = some (JVal.arr (JList.cons (JVal.obj x) tail)) →
       jLookup x "text" = none → extract_content result = JVal.str "") ∧
    ((∀ v, jLookup result "result" = some v → ∃ m, v = JVal.obj m) →
     (∀ m v, jLookup result "result" = some (JVal.obj m) →
        jLookup m "message" = some v → ∃ p, v = JVal.obj p) →
     (∀ m p v, jLookup result "result" = some (JVal.obj m) →
        jLookup m "message" = some (JVal.obj p) →
        jLookup p "parts" = some v → ∃ l, v = JVal.arr l) →
     (∀ m p x tail, jLookup result "result" = some (JVal.obj m) →
        jLookup m "message" = some (JVal.obj p) →
        jLookup p "parts" = some (JVal.arr (JList.cons x tail)) →
        ∃ xo, x = JVal.obj xo) →
     ∃ v, extractTry result = Except.ok v ∧ extract_content result = v) ∧
    (extractTry result = Except.error () →
       extract_content result = JVal.str (pyRepr (JVal.obj result))) := by
  refine ⟨?_, ?_, ?_, ?_, ?_, ?_, ?_, ?_⟩
  · intro m p x tail t h1 h2 h3 h4
    unfold extract_content extractTry
    simp [jGetD, h1, h2, h3, h4, jTruthy, jIndex0, Bind.bind, Except.bind,
      pure, Except.pure]
  · intro h
    unfold extract_content extractTry
    simp [jGetD, h, jTruthy, jLookup, Bind.bind, Except.bind, pure, Except.pure]
  · intro m h1 h2
    unfold extract_content extractTry
    simp [jGetD, h1, h2, jTruthy, jLookup, Bind.bind, Except.bind, pure,
      Except.pure]
  · intro m p h1 h2 h3
    unfold extract_content extractTry
    simp [jGetD, h1, h2, h3, jTruthy, jLookup, Bind.bind, Except.bind, pure,
      Except.pure]
  · intro m p h1 h2 h3
    unfold extract_content extractTry
    simp [jGetD, h1, h2, h3, jTruthy, jLookup, Bind.bind, Except.bind, pure,
      Except.pure]
  · intro m p x tail h1 h2 h3 h4
    unfold extract_content extractTry
    simp [jGetD, h1, h2, h3, h4, jTruthy, jIndex0, jLookup, Bind.bind,
      Except.bind, pure, Except.pure]
  · intro hw1 hw2 hw3 hw4
    cases hv1 : jLookup result "result" with
    | none =>
        have ht : extractTry result = Except.ok (JVal.str "") := by
          unfold extractTry
          simp [jGetD, hv1, jTruthy, jLookup, Bind.bind, Except.bind, pure,
            Except.pure]
        exact ⟨_, ht, by unfold extract_content; rw [ht]⟩
    | some v =>
        obtain ⟨m, rfl⟩ := hw1 v hv1
        cases hv2 : jLookup m "message" with
        | none =>
            have ht : extractTry result = Except.ok (JVal.str "") := by
              unfold extractTry
              simp [jGetD, hv1, hv2, jTruthy, jLookup, Bind.bind, Except.bind,
                pure, Except.pure]
            exact ⟨_, ht, by unfold extract_content; rw [ht]⟩
        | some v2 =>
            obtain ⟨p, rfl⟩ := hw2 m v2 hv1 hv2
            cases hv3 : jLookup p "parts" with
            | none =>
                have ht : extractTry result = Except.ok (JVal.str "") := by
                  unfold extractTry
                  simp [jGetD, hv1, hv2, hv3, jTruthy, jLookup, Bind.bind,
                    Except.bind, pure, Except.pure]
                exact ⟨_, ht, by unfold extract_content; rw [ht]⟩
            | some v3 =>
                obtain ⟨l, rfl⟩ := hw3 m p v3 hv1 hv2 hv3
                cases l with
                | nil =>
                    have ht : extractTry result = Except.ok (JVal.str "") := by
                      unfold extractTry
                      simp [jGetD, hv1, hv2, hv3, jTruthy, Bind.bind,
                        Except.bind, pure, Except.pure]
                    exact ⟨_, ht, by unfold extract_content; rw [ht]⟩
                | cons x tail =>
                    obtain ⟨xo, rfl⟩ := hw4 m p x tail hv1 hv2 hv3
                    have ht : extractTry result =
                        Except.ok ((jLookup xo "text").getD (JVal.str "")) := by
                      unfold extractTry
                      simp [jGetD, hv1, hv2, hv3, jTruthy, jIndex0, Bind.bind,
                        Except.bind, pure, Except.pure]
                    exact ⟨_, ht, by unfold extract_content; rw [ht]⟩
  · intro h
    unfold extract_content
    rw [h]

/-- A well-formed RPC success envelope carrying the text "hello". -/
def sampleEnvelope : JObj :=
  JObj.cons "result"
    (JVal.obj (JObj.cons "message"
      (JVal.obj (JObj.cons "parts"
        (JVal.arr (JList.cons
          (JVal.obj (JObj.cons "text" (JVal.str "hello") JObj.nil))
          JList.nil))
        JObj.nil))
      JObj.nil))
    JObj.nil

/-- An envelope whose "result" value is a string: calling `.get` on it raises
and extraction falls back to the string form of the envelope. -/
def badEnvelope : JObj :=
  JObj.cons "result" (JVal.str "oops") JObj.nil

/-- Witness for the amended C9 theorem: the full path on a concrete envelope,
the missing-"result" and missing-"message" cases, the no-raise guarantee on
the well-shaped envelope, and the fallback on a wrongly-typed envelope. -/
theorem C9_witness :
    extract_content sampleEnvelope = JVal.str "hello" ∧
    extract_content JObj.nil = JVal.str "" ∧
    extract_content (JObj.cons "result" (JVal.obj JObj.nil) JObj.nil) =
      JVal.str "" ∧
    (∃ v, extractTry sampleEnvelope = Except.ok v ∧
       extract_content sampleEnvelope = v) ∧
    extract_content badEnvelope = JVal.str (pyRepr (JVal.obj badEnvelope)) := by
  refine ⟨?_, ?_, ?_, ?_, ?_⟩
  · exact (C9_extraction_path sampleEnvelope).1 _ _ _ _ _ rfl rfl rfl rfl
  · exact (C9_extraction_path JObj.nil).2.1 rfl
  · exact (C9_extraction_path _).2.2.1 JObj.nil rfl rfl
  · refine (C9_extraction_path sampleEnvelope).2.2.2.2.2.2.1 ?_ ?_ ?_ ?_
    · intro v h
      injection h with h2
      exact ⟨_, h2.symm⟩
    · intro m v h1 h2
      injection h1 with h1a
      injection h1a with h1b
      subst h1b
      injection h2 with h2a
      exact ⟨_, h2a.symm⟩
    · intro m p v h1 h2 h3
      injection h1 with h1a
      injection h1a with h1b
      subst h1b
      injection h2 with h2a
      injection h2a with h2b
      subst h2b
      injection h3 with h3a
      exact ⟨_, h3a.symm⟩
    · intro m p x tail h1 h2 h3
      injection h1 with h1a
      injection h1a with h1b
      subst h1b
      injection h2 with h2a
      injection h2a with h2b
      subst h2b
      injection h3 with h3a
      injection h3a with h3b
      injection h3b with h3c h3d
      exact ⟨_, h3c.symm⟩
  · exact (C9_extraction_path badEnvelope).2.2.2.2.2.2.2 rfl
